import Mathlib

/-!
A shallow embedding of `neurokit2/eda/eda_intervalrelated.py` and proofs of
properties of its specification.

Modelling choices:
* Float samples are modelled exactly: a channel value (`CVal`) is either `NaN`
  or a rational number; a result value (`RVal`) is `NaN`, a rational, or
  `sqrtv q`, denoting the real number `√q` (this arises only from
  `np.nanstd`, which is a square root of a rational variance on rational
  inputs).
* A pandas `DataFrame` is a `Table`: an ordered association list from column
  names to sample lists. A Python `dict` used as a record is a `Record`:
  an ordered association list with Python's insertion-order update semantics
  (`dictSet`, `dictUpdate`).
* The external collaborator `eda_sympathetic` is a parameter `symp : SympFn`;
  the embedding also reports which signal (if any) was passed to it.
* The mutable default argument `output={}` of `_eda_intervalrelated` is a
  process-wide dict shared by all calls that do not pass `output` explicitly.
  It is modelled by threading its current contents (`st : Record`) through
  `eda_intervalrelated`, which returns the dict's new contents alongside the
  results, mirroring that the function mutates the very dict it returns.
* Exceptions escaping `eda_intervalrelated` (`NameError` when `data` is
  neither a `DataFrame` nor a `dict`, pandas `KeyError`/`IndexError` from
  `data[index]["Label"].iloc[0]`) are modelled with `Except`.
-/

/-- A float sample in a channel: `NaN` or a (rational) number. -/
inductive CVal where
  | nan : CVal
  | num : ℚ → CVal
deriving DecidableEq, Repr

/-- A float stored in a result record: `NaN`, a number, or `sqrtv q` = `√q`
(produced by `np.nanstd`, whose value on rational inputs is the square root
of a rational variance). -/
inductive RVal where
  | nan : RVal
  | num : ℚ → RVal
  | sqrtv : ℚ → RVal
deriving DecidableEq, Repr

/-- Copying a channel value (e.g. `data[index]["Label"].iloc[0]`) into a
record. -/
def CVal.toR : CVal → RVal
  | .nan => .nan
  | .num q => .num q

/-- The numeric entries of a channel, in order, NaN entries dropped. -/
def nanFilter (xs : List CVal) : List ℚ :=
  xs.filterMap fun v => match v with
    | .nan => none
    | .num q => some q

/-- Embedding of `np.nansum`: sum of the non-NaN entries (`0` when there are none). -/
def nansum (xs : List CVal) : RVal :=
  .num (nanFilter xs).sum

/-- Arithmetic mean of a list of rationals (`0` on the empty list, unused
there). -/
def qmean (l : List ℚ) : ℚ :=
  l.sum / l.length

/-- Population variance of a list of rationals. -/
def qvar (l : List ℚ) : ℚ :=
  (l.map fun x => (x - qmean l) ^ 2).sum / l.length

/-- Embedding of `np.nanmean`: mean of the non-NaN entries, NaN when there are none. -/
def nanmean (xs : List CVal) : RVal :=
  if (nanFilter xs).isEmpty then .nan else .num (qmean (nanFilter xs))

/-- Embedding of `np.nanstd` (ddof = 0): square root of the population variance of the
non-NaN entries, NaN when there are none. -/
def nanstd (xs : List CVal) : RVal :=
  if (nanFilter xs).isEmpty then .nan else .sqrtv (qvar (nanFilter xs))

/-- A pandas DataFrame of named channels: ordered columns, each a list of
samples. -/
structure Table where
  cols : List (String × List CVal)
deriving DecidableEq, Repr

/-- The column names, `data.columns.values`. -/
def Table.colnames (t : Table) : List String :=
  t.cols.map Prod.fst

/-- Column lookup `data[name]` as an `Option` (pandas raises `KeyError` when absent). -/
def Table.col? (t : Table) (name : String) : Option (List CVal) :=
  match t.cols.find? (fun p => p.1 = name) with
  | some p => some p.2
  | none => none

/-- Column values `data[name].values` when the column is known present (`[]` otherwise,
never reached under that hypothesis). -/
def Table.col (t : Table) (name : String) : List CVal :=
  (t.col? name).getD []

/-- A Python dict used as a result record: insertion-ordered key/value
pairs. -/
abbrev Record := List (String × RVal)

/-- Dict lookup: first (and only) binding of a key. -/
def dictGet : Record → String → Option RVal
  | [], _ => none
  | (k, v) :: r, key => if k = key then some v else dictGet r key

/-- Assignment `output[key] = v`: overwrite in place when the key exists, else append
(Python dict insertion-order semantics). -/
def dictSet : Record → String → RVal → Record
  | [], key, v => [(key, v)]
  | (k, w) :: r, key, v => if k = key then (k, v) :: r else (k, w) :: dictSet r key v

/-- Update `output.update(kvs)`: `dictSet` each pair in order. -/
def dictUpdate (r : Record) (kvs : List (String × RVal)) : Record :=
  kvs.foldl (fun acc p => dictSet acc p.1 p.2) r

/-- The external collaborator `eda_sympathetic(signal, sampling_rate)`:
returns a flat mapping of named features. -/
def SympFn := List CVal → ℚ → List (String × RVal)

/-- The two warnings `_eda_intervalrelated` can emit (category
`NeuroKitWarning`). -/
inductive Warn where
  | missingSCRPeaks
  | missingSCRAmplitude
deriving DecidableEq, Repr

/-- Warnings emitted by one `_eda_intervalrelated` call, in emission
order. -/
def scrWarnList (data : Table) : List Warn :=
  (if "SCR_Peaks" ∈ data.colnames then [] else [.missingSCRPeaks]) ++
    (if "SCR_Amplitude" ∈ data.colnames then [] else [.missingSCRAmplitude])

/-- The `SCR_Peaks` block: warn-and-NaN when the column is missing, else
`np.nansum` of it. -/
def peaksStep (data : Table) (output : Record) : Record :=
  if "SCR_Peaks" ∈ data.colnames then
    dictSet output "SCR_Peaks_N" (nansum (data.col "SCR_Peaks"))
  else
    dictSet output "SCR_Peaks_N" .nan

/-- The `SCR_Amplitude` block: warn-and-NaN when the column is missing, else
`np.nanmean` of it. -/
def ampStep (data : Table) (output : Record) : Record :=
  if "SCR_Amplitude" ∈ data.colnames then
    dictSet output "SCR_Peaks_Amplitude_Mean" (nanmean (data.col "SCR_Amplitude"))
  else
    dictSet output "SCR_Peaks_Amplitude_Mean" .nan

/-- The `EDA_Tonic` block: `np.nanstd` when present, nothing otherwise. -/
def tonicStep (data : Table) (output : Record) : Record :=
  if "EDA_Tonic" ∈ data.colnames then
    dictSet output "EDA_Tonic_SD" (nanstd (data.col "EDA_Tonic"))
  else output

/-- The `EDA_Sympathetic` block: `output.update(eda_sympathetic(...))` on
`EDA_Clean`, else on `EDA_Raw`, else nothing. -/
def sympStep (symp : SympFn) (data : Table) (sampling_rate : ℚ) (output : Record) : Record :=
  if "EDA_Clean" ∈ data.colnames then
    dictUpdate output (symp (data.col "EDA_Clean") sampling_rate)
  else if "EDA_Raw" ∈ data.colnames then
    dictUpdate output (symp (data.col "EDA_Raw") sampling_rate)
  else output

/-- The signal and rate passed to `eda_sympathetic`, when it is called. -/
def sympArgOf (data : Table) (sampling_rate : ℚ) : Option (List CVal × ℚ) :=
  if "EDA_Clean" ∈ data.colnames then some (data.col "EDA_Clean", sampling_rate)
  else if "EDA_Raw" ∈ data.colnames then some (data.col "EDA_Raw", sampling_rate)
  else none

/-- Result of one `_eda_intervalrelated` call: the dict it returns (the same
object as its `output` argument), the warnings emitted, and what was passed
to `eda_sympathetic`. -/
structure IntervalOut where
  output : Record
  warnings : List Warn
  sympArg : Option (List CVal × ℚ)
deriving DecidableEq, Repr

/-- The three feature blocks before the sympathetic one, in source order. -/
def featureSteps (data : Table) (output : Record) : Record :=
  tonicStep data (ampStep data (peaksStep data output))

/-- The function `_eda_intervalrelated(data, output, sampling_rate)`. -/
def _eda_intervalrelated (symp : SympFn) (data : Table) (output : Record)
    (sampling_rate : ℚ) : IntervalOut :=
  { output := sympStep symp data sampling_rate (featureSteps data output)
    warnings := scrWarnList data
    sympArg := sympArgOf data sampling_rate }

/-- The argument `data` of `eda_intervalrelated`: a DataFrame, a dict of
DataFrames, or anything else. -/
inductive InputData where
  | df : Table → InputData
  | dict : List (String × Table) → InputData
  | other : InputData

/-- Exceptions escaping `eda_intervalrelated`. -/
inductive Err where
  | nameError : Err
  | keyError : String → Err
  | indexError : Err
deriving DecidableEq, Repr

/-- The dict branch: for each epoch, start a fresh dict holding
`data[index]["Label"].iloc[0]`, then run `_eda_intervalrelated` on it.
`KeyError` when a table has no `Label` column, `IndexError` when that column
is empty. -/
def processDict (symp : SympFn) (sampling_rate : ℚ) :
    List (String × Table) → Except Err (List Record × List Warn)
  | [] => .ok ([], [])
  | (_, t) :: rest =>
    match t.col? "Label" with
    | none => .error (.keyError "Label")
    | some vals =>
      match vals.head? with
      | none => .error .indexError
      | some v =>
        let r := _eda_intervalrelated symp t (dictSet [] "Label" v.toR) sampling_rate
        match processDict symp sampling_rate rest with
        | .error e => .error e
        | .ok (rs, ws) => .ok (r.output :: rs, r.warnings ++ ws)

/-- Result of one `eda_intervalrelated` call: the rows of the returned
DataFrame (one record per row), the contents of the process-wide default
`output` dict after the call, and the warnings emitted. -/
structure RunOut where
  results : List Record
  newState : Record
  warnings : List Warn
deriving DecidableEq, Repr

/-- The entry point `eda_intervalrelated(data, sampling_rate)`, with `st` the current
contents of the shared default dict (empty at process start). The DataFrame
branch passes no `output`, so it reads and mutates the shared dict; the dict
branch passes a fresh dict per epoch and leaves the shared dict alone. A
non-DataFrame non-dict input leaves `results` unbound, so `return results`
raises `NameError`. -/
def eda_intervalrelated (symp : SympFn) (data : InputData) (sampling_rate : ℚ)
    (st : Record) : Except Err RunOut :=
  match data with
  | .df t =>
    let r := _eda_intervalrelated symp t st sampling_rate
    .ok { results := [r.output], newState := r.output, warnings := r.warnings }
  | .dict m =>
    match processDict symp sampling_rate m with
    | .error e => .error e
    | .ok (rs, ws) => .ok { results := rs, newState := st, warnings := ws }
  | .other => .error .nameError

/-! ## Dict lemmas -/

theorem dictGet_dictSet_self (r : Record) (k : String) (v : RVal) :
    dictGet (dictSet r k v) k = some v := by
  induction r with
  | nil => simp [dictSet, dictGet]
  | cons p r ih =>
    by_cases h : p.1 = k
    · simp [dictSet, dictGet, h]
    · simp [dictSet, dictGet, h, ih]

theorem dictGet_dictSet_ne (r : Record) (k key : String) (v : RVal) (h : k ≠ key) :
    dictGet (dictSet r k v) key = dictGet r key := by
  induction r with
  | nil => simp [dictSet, dictGet, h]
  | cons p r ih =>
    by_cases hp : p.1 = k
    · simp [dictSet, dictGet, hp, h]
    · simp [dictSet, dictGet, hp, ih]

theorem dictGet_isSome_dictSet (r : Record) (k key : String) (v : RVal)
    (h : (dictGet r key).isSome) : (dictGet (dictSet r k v) key).isSome := by
  by_cases hk : k = key
  · subst hk; simp [dictGet_dictSet_self]
  · rwa [dictGet_dictSet_ne r k key v hk]

theorem dictSet_of_get_eq (r : Record) (k : String) (v : RVal)
    (h : dictGet r k = some v) : dictSet r k v = r := by
  induction r with
  | nil => simp [dictGet] at h
  | cons p r ih =>
    obtain ⟨k', w⟩ := p
    by_cases hp : k' = k
    · simp [dictGet, hp] at h
      simp [dictSet, hp, ← h]
    · simp [dictGet, hp] at h
      simp [dictSet, hp, ih h]

theorem dictGet_dictUpdate_not_mem (kvs : List (String × RVal)) (r : Record)
    (key : String) (h : ∀ p ∈ kvs, p.1 ≠ key) :
    dictGet (dictUpdate r kvs) key = dictGet r key := by
  induction kvs generalizing r with
  | nil => rfl
  | cons p kvs ih =>
    have hp : p.1 ≠ key := h p (List.mem_cons_self p kvs)
    have hrest : ∀ q ∈ kvs, q.1 ≠ key := fun q hq => h q (List.mem_cons_of_mem p hq)
    show dictGet (dictUpdate (dictSet r p.1 p.2) kvs) key = dictGet r key
    rw [ih (dictSet r p.1 p.2) hrest, dictGet_dictSet_ne r p.1 key p.2 hp]

theorem dictGet_isSome_dictUpdate (kvs : List (String × RVal)) (r : Record)
    (key : String) (h : (dictGet r key).isSome) :
    (dictGet (dictUpdate r kvs) key).isSome := by
  induction kvs generalizing r with
  | nil => exact h
  | cons p kvs ih =>
    exact ih (dictSet r p.1 p.2) (dictGet_isSome_dictSet r p.1 key p.2 h)

theorem dictGet_append (a b : Record) (key : String) :
    dictGet (a ++ b) key =
      match dictGet a key with
      | some v => some v
      | none => dictGet b key := by
  induction a with
  | nil => simp [dictGet]
  | cons p a ih =>
    by_cases hp : p.1 = key
    · simp [dictGet, hp]
    · simpa [dictGet, hp] using ih

/-- Last-occurrence-wins semantics of `dict.update`: the value of `key` after
`dictUpdate r kvs` is its last value in `kvs`, or its value in `r` when `kvs`
does not bind it. -/
theorem dictGet_dictUpdate (kvs : List (String × RVal)) (r : Record) (key : String) :
    dictGet (dictUpdate r kvs) key =
      match dictGet kvs.reverse key with
      | some v => some v
      | none => dictGet r key := by
  induction kvs generalizing r with
  | nil => rfl
  | cons p kvs ih =>
    show dictGet (dictUpdate (dictSet r p.1 p.2) kvs) key = _
    rw [ih, List.reverse_cons, dictGet_append]
    cases hk : dictGet kvs.reverse key with
    | some v => rfl
    | none =>
      by_cases hp : p.1 = key
      · simp only [dictGet, hp, if_pos rfl]
        exact hp ▸ dictGet_dictSet_self r p.1 p.2
      · simp only [dictGet, hp, if_neg hp]
        exact dictGet_dictSet_ne r p.1 key p.2 hp

/-! ## Step lemmas -/

/-- The collaborator never returns a feature named `key` (the spec expects no
clash between its feature names and this component's own keys). -/
def SympAvoids (symp : SympFn) (key : String) : Prop :=
  ∀ sig rate, ∀ p ∈ symp sig rate, p.1 ≠ key

theorem dictGet_peaksStep_ne (data : Table) (o : Record) (key : String)
    (h : key ≠ "SCR_Peaks_N") : dictGet (peaksStep data o) key = dictGet o key := by
  unfold peaksStep
  split <;> exact dictGet_dictSet_ne o _ key _ (Ne.symm h)

theorem dictGet_ampStep_ne (data : Table) (o : Record) (key : String)
    (h : key ≠ "SCR_Peaks_Amplitude_Mean") :
    dictGet (ampStep data o) key = dictGet o key := by
  unfold ampStep
  split <;> exact dictGet_dictSet_ne o _ key _ (Ne.symm h)

theorem dictGet_tonicStep_ne (data : Table) (o : Record) (key : String)
    (h : key ≠ "EDA_Tonic_SD") : dictGet (tonicStep data o) key = dictGet o key := by
  unfold tonicStep
  split
  · exact dictGet_dictSet_ne o _ key _ (Ne.symm h)
  · rfl

theorem dictGet_sympStep_avoid (symp : SympFn) (data : Table) (rate : ℚ)
    (o : Record) (key : String) (hs : SympAvoids symp key) :
    dictGet (sympStep symp data rate o) key = dictGet o key := by
  unfold sympStep
  split
  · exact dictGet_dictUpdate_not_mem _ o key (hs _ rate)
  · split
    · exact dictGet_dictUpdate_not_mem _ o key (hs _ rate)
    · rfl

theorem sympStep_noSignal (symp : SympFn) (data : Table) (rate : ℚ) (o : Record)
    (h1 : "EDA_Clean" ∉ data.colnames) (h2 : "EDA_Raw" ∉ data.colnames) :
    sympStep symp data rate o = o := by
  unfold sympStep
  rw [if_neg h1, if_neg h2]

theorem dictGet_tonicStep_present (data : Table) (o : Record)
    (h : "EDA_Tonic" ∈ data.colnames) :
    dictGet (tonicStep data o) "EDA_Tonic_SD" = some (nanstd (data.col "EDA_Tonic")) := by
  unfold tonicStep
  rw [if_pos h, dictGet_dictSet_self]

theorem tonicStep_absent (data : Table) (o : Record)
    (h : "EDA_Tonic" ∉ data.colnames) : tonicStep data o = o := by
  unfold tonicStep
  rw [if_neg h]

theorem dictGet_featureSteps_tonic_present (data : Table) (o : Record)
    (h : "EDA_Tonic" ∈ data.colnames) :
    dictGet (featureSteps data o) "EDA_Tonic_SD" = some (nanstd (data.col "EDA_Tonic")) :=
  dictGet_tonicStep_present data _ h

theorem dictGet_featureSteps_tonic_absent (data : Table) (o : Record)
    (h : "EDA_Tonic" ∉ data.colnames) :
    dictGet (featureSteps data o) "EDA_Tonic_SD" = dictGet o "EDA_Tonic_SD" := by
  unfold featureSteps
  rw [tonicStep_absent data _ h,
    dictGet_ampStep_ne data _ _ (by decide),
    dictGet_peaksStep_ne data _ _ (by decide)]

theorem dictGet_featureSteps_peaks (data : Table) (o : Record) :
    dictGet (featureSteps data o) "SCR_Peaks_N" =
      some (if "SCR_Peaks" ∈ data.colnames then nansum (data.col "SCR_Peaks") else .nan) := by
  unfold featureSteps
  rw [dictGet_tonicStep_ne data _ _ (by decide),
    dictGet_ampStep_ne data _ _ (by decide)]
  unfold peaksStep
  split <;> simp_all [dictGet_dictSet_self]

theorem dictGet_featureSteps_amp (data : Table) (o : Record) :
    dictGet (featureSteps data o) "SCR_Peaks_Amplitude_Mean" =
      some (if "SCR_Amplitude" ∈ data.colnames then nanmean (data.col "SCR_Amplitude") else .nan) := by
  unfold featureSteps
  rw [dictGet_tonicStep_ne data _ _ (by decide)]
  unfold ampStep
  split <;> simp_all [dictGet_dictSet_self]

theorem eda_tonic_isSome (symp : SympFn) (t : Table) (o : Record) (rate : ℚ)
    (h : "EDA_Tonic" ∈ t.colnames) :
    (dictGet (_eda_intervalrelated symp t o rate).output "EDA_Tonic_SD").isSome := by
  show (dictGet (sympStep symp t rate (featureSteps t o)) "EDA_Tonic_SD").isSome
  have hf : (dictGet (featureSteps t o) "EDA_Tonic_SD").isSome := by
    rw [dictGet_featureSteps_tonic_present t o h]; rfl
  unfold sympStep
  split
  · exact dictGet_isSome_dictUpdate _ _ _ hf
  · split
    · exact dictGet_isSome_dictUpdate _ _ _ hf
    · exact hf

theorem eda_tonic_absent_get (symp : SympFn) (t : Table) (o : Record) (rate : ℚ)
    (h2 : "EDA_Tonic" ∉ t.colnames) (h3 : "EDA_Clean" ∉ t.colnames)
    (h4 : "EDA_Raw" ∉ t.colnames) :
    dictGet (_eda_intervalrelated symp t o rate).output "EDA_Tonic_SD" =
      dictGet o "EDA_Tonic_SD" := by
  show dictGet (sympStep symp t rate (featureSteps t o)) "EDA_Tonic_SD" = _
  rw [sympStep_noSignal symp t rate _ h3 h4, dictGet_featureSteps_tonic_absent t o h2]

theorem eda_tonic_present_get (symp : SympFn) (t : Table) (o : Record) (rate : ℚ)
    (h1 : "EDA_Tonic" ∈ t.colnames) (hs : SympAvoids symp "EDA_Tonic_SD") :
    dictGet (_eda_intervalrelated symp t o rate).output "EDA_Tonic_SD" =
      some (nanstd (t.col "EDA_Tonic")) := by
  show dictGet (sympStep symp t rate (featureSteps t o)) "EDA_Tonic_SD" = _
  rw [dictGet_sympStep_avoid symp t rate _ _ hs, dictGet_featureSteps_tonic_present t o h1]

/-- A concrete collaborator for concrete runs: returns no features. -/
def sympNone : SympFn := fun _ _ => []

theorem sympNone_avoids (key : String) : SympAvoids sympNone key := by
  intro sig rate p hp
  simp [sympNone] at hp

/-! ## Claims -/

/-- C1: the spec claims `eda_intervalrelated` is stateless, with no mutable
state shared between calls, so that identical inputs always give identical
outputs. The code violates this: the mutable default `output={}` of
`_eda_intervalrelated` is shared by every single-DataFrame call, so a call on
a tonic-free table, then one on a table with `EDA_Tonic`, then a third on the
same tonic-free input as the first, gives a third result that differs from
the first (it carries a stale `EDA_Tonic_SD` entry). -/
theorem eda_identical_input_differing_output :
    ∃ o1 o2 o3,
      eda_intervalrelated sympNone (.df ⟨[("SCR_Peaks", [CVal.num 1])]⟩) 1000 [] = .ok o1 ∧
      eda_intervalrelated sympNone (.df ⟨[("EDA_Tonic", [CVal.num 2, CVal.num 4])]⟩) 1000
        o1.newState = .ok o2 ∧
      eda_intervalrelated sympNone (.df ⟨[("SCR_Peaks", [CVal.num 1])]⟩) 1000
        o2.newState = .ok o3 ∧
      o3.results ≠ o1.results := by
  refine ⟨_, _, _, rfl, rfl, rfl, ?_⟩
  intro h
  simp only [List.cons.injEq, and_true] at h
  have hnone : dictGet (_eda_intervalrelated sympNone ⟨[("SCR_Peaks", [CVal.num 1])]⟩ [] 1000).output
      "EDA_Tonic_SD" = none := by
    rw [eda_tonic_absent_get sympNone _ _ 1000 (by decide) (by decide) (by decide)]
    rfl
  have hsome : (dictGet (_eda_intervalrelated sympNone ⟨[("SCR_Peaks", [CVal.num 1])]⟩
      (_eda_intervalrelated sympNone ⟨[("EDA_Tonic", [CVal.num 2, CVal.num 4])]⟩
        (_eda_intervalrelated sympNone ⟨[("SCR_Peaks", [CVal.num 1])]⟩ [] 1000).output 1000).output
      1000).output "EDA_Tonic_SD").isSome := by
    rw [eda_tonic_absent_get sympNone _ _ 1000 (by decide) (by decide) (by decide)]
    exact eda_tonic_isSome sympNone _ _ 1000 (by decide)
  rw [h, hnone] at hsome
  exact Bool.noConfusion hsome

/-- C2: the per-record accumulator of `_eda_intervalrelated` is a mutable
default argument shared by every single-DataFrame call: a key written during
one DataFrame-input call (here `EDA_Tonic_SD`) persists and reappears in the
result of a later DataFrame-input call whose input lacks the corresponding
channel. -/
theorem eda_sharedDefault_leaks_across_calls (symp : SympFn) (t1 t2 : Table)
    (st : Record) (rate1 rate2 : ℚ)
    (h1 : "EDA_Tonic" ∈ t1.colnames)
    (h2 : "EDA_Tonic" ∉ t2.colnames)
    (h3 : "EDA_Clean" ∉ t2.colnames)
    (h4 : "EDA_Raw" ∉ t2.colnames) :
    ∃ o1 o2 rec2,
      eda_intervalrelated symp (.df t1) rate1 st = .ok o1 ∧
      eda_intervalrelated symp (.df t2) rate2 o1.newState = .ok o2 ∧
      o2.results = [rec2] ∧
      dictGet rec2 "EDA_Tonic_SD" = dictGet o1.newState "EDA_Tonic_SD" ∧
      (dictGet rec2 "EDA_Tonic_SD").isSome := by
  refine ⟨_, _, _, rfl, rfl, rfl, ?_, ?_⟩
  · exact eda_tonic_absent_get symp t2 _ rate2 h2 h3 h4
  · rw [eda_tonic_absent_get symp t2 _ rate2 h2 h3 h4]
    exact eda_tonic_isSome symp t1 st rate1 h1

theorem eda_sharedDefault_leaks_across_calls_witness :
    ∃ o1 o2 rec2,
      eda_intervalrelated sympNone (.df ⟨[("EDA_Tonic", [CVal.num 1, CVal.num 3])]⟩) 1000 []
          = .ok o1 ∧
      eda_intervalrelated sympNone (.df ⟨[("SCR_Amplitude", [CVal.num 5])]⟩) 1000
          o1.newState = .ok o2 ∧
      o2.results = [rec2] ∧
      dictGet rec2 "EDA_Tonic_SD" = dictGet o1.newState "EDA_Tonic_SD" ∧
      (dictGet rec2 "EDA_Tonic_SD").isSome :=
  eda_sharedDefault_leaks_across_calls sympNone _ _ [] 1000 1000
    (by decide) (by decide) (by decide) (by decide)

/-- C3: the spec claims every produced record contains exactly the expected
keys, and in particular no `EDA_Tonic_SD` key when the input has no
`EDA_Tonic` channel. The code violates this through the shared default
accumulator: after a call on a table with `EDA_Tonic`, a call on a table
without it still yields a record with an `EDA_Tonic_SD` entry (the stale
value √1 here, from the earlier table's variance). -/
theorem eda_record_gains_stale_tonic_key :
    ∃ o1 o2 rec,
      eda_intervalrelated sympNone (.df ⟨[("EDA_Tonic", [CVal.num 2, CVal.num 4])]⟩) 500 []
          = .ok o1 ∧
      eda_intervalrelated sympNone (.df ⟨[("SCR_Peaks", [CVal.num 1, CVal.num 1])]⟩) 500
          o1.newState = .ok o2 ∧
      o2.results = [rec] ∧
      "EDA_Tonic" ∉ (⟨[("SCR_Peaks", [CVal.num 1, CVal.num 1])]⟩ : Table).colnames ∧
      dictGet rec "EDA_Tonic_SD" = some (RVal.sqrtv 1) := by
  refine ⟨_, _, _, rfl, rfl, rfl, by decide, ?_⟩
  rw [eda_tonic_absent_get sympNone _ _ 500 (by decide) (by decide) (by decide),
    eda_tonic_present_get sympNone _ _ 500 (by decide) (sympNone_avoids _)]
  have hcol : (⟨[("EDA_Tonic", [CVal.num 2, CVal.num 4])]⟩ : Table).col "EDA_Tonic"
      = [CVal.num 2, CVal.num 4] := rfl
  rw [hcol]
  have hfil : nanFilter [CVal.num 2, CVal.num 4] = [2, 4] := rfl
  norm_num [nanstd, hfil, qvar, qmean]

/-- C6: if `EDA_Clean` is present, `eda_sympathetic` is invoked on the
`EDA_Clean` channel with the given sampling rate (even when `EDA_Raw` is also
present); otherwise, if `EDA_Raw` is present, on `EDA_Raw`; if neither is
present, the collaborator is not called and the record and warnings are
untouched by this block; the collaborator's returned mapping is merged into
the record with dict-update semantics, so for each returned key the last
returned value overwrites any pre-existing entry of the same name. -/
theorem eda_sympathetic_choice (symp : SympFn) (t : Table) (output : Record) (rate : ℚ) :
    ("EDA_Clean" ∈ t.colnames →
      (_eda_intervalrelated symp t output rate).sympArg = some (t.col "EDA_Clean", rate) ∧
      (_eda_intervalrelated symp t output rate).output =
        dictUpdate (featureSteps t output) (symp (t.col "EDA_Clean") rate) ∧
      ∀ key v, dictGet (symp (t.col "EDA_Clean") rate).reverse key = some v →
        dictGet (_eda_intervalrelated symp t output rate).output key = some v) ∧
    ("EDA_Clean" ∉ t.colnames → "EDA_Raw" ∈ t.colnames →
      (_eda_intervalrelated symp t output rate).sympArg = some (t.col "EDA_Raw", rate) ∧
      (_eda_intervalrelated symp t output rate).output =
        dictUpdate (featureSteps t output) (symp (t.col "EDA_Raw") rate)) ∧
    ("EDA_Clean" ∉ t.colnames → "EDA_Raw" ∉ t.colnames →
      (_eda_intervalrelated symp t output rate).sympArg = none ∧
      (_eda_intervalrelated symp t output rate).output = featureSteps t output ∧
      (_eda_intervalrelated symp t output rate).warnings = scrWarnList t) := by
  refine ⟨fun hc => ⟨?_, ?_, ?_⟩, fun hc hr => ⟨?_, ?_⟩, fun hc hr => ⟨?_, ?_, rfl⟩⟩
  · show sympArgOf t rate = _
    unfold sympArgOf
    rw [if_pos hc]
  · show sympStep symp t rate (featureSteps t output) = _
    unfold sympStep
    rw [if_pos hc]
  · intro key v hv
    show dictGet (sympStep symp t rate (featureSteps t output)) key = _
    unfold sympStep
    rw [if_pos hc, dictGet_dictUpdate, hv]
  · show sympArgOf t rate = _
    unfold sympArgOf
    rw [if_neg hc, if_pos hr]
  · show sympStep symp t rate (featureSteps t output) = _
    unfold sympStep
    rw [if_neg hc, if_pos hr]
  · show sympArgOf t rate = _
    unfold sympArgOf
    rw [if_neg hc, if_neg hr]
  · exact sympStep_noSignal symp t rate _ hc hr

theorem eda_sympathetic_choice_witness :
    (_eda_intervalrelated sympNone
        ⟨[("EDA_Clean", [CVal.num 1]), ("EDA_Raw", [CVal.num 2])]⟩ [] 100).sympArg
      = some ([CVal.num 1], 100) :=
  ((eda_sympathetic_choice sympNone
      ⟨[("EDA_Clean", [CVal.num 1]), ("EDA_Raw", [CVal.num 2])]⟩ [] 100).1 (by decide)).1

/-- C7: when `SCR_Amplitude` is present, `SCR_Peaks_Amplitude_Mean` is the
mean of the channel's non-NaN entries, and when there is no non-NaN entry the
result is NaN, with no special-casing (hypothesis: the collaborator does not
return a feature of the same name). -/
theorem eda_amp_mean (symp : SympFn) (t : Table) (output : Record) (rate : ℚ)
    (h : "SCR_Amplitude" ∈ t.colnames)
    (hs : SympAvoids symp "SCR_Peaks_Amplitude_Mean") :
    dictGet (_eda_intervalrelated symp t output rate).output "SCR_Peaks_Amplitude_Mean" =
      some (nanmean (t.col "SCR_Amplitude")) ∧
    (nanFilter (t.col "SCR_Amplitude") ≠ [] →
      nanmean (t.col "SCR_Amplitude") =
        .num ((nanFilter (t.col "SCR_Amplitude")).sum / (nanFilter (t.col "SCR_Amplitude")).length)) ∧
    (nanFilter (t.col "SCR_Amplitude") = [] → nanmean (t.col "SCR_Amplitude") = .nan) := by
  refine ⟨?_, fun hne => ?_, fun he => ?_⟩
  · show dictGet (sympStep symp t rate (featureSteps t output)) _ = _
    rw [dictGet_sympStep_avoid symp t rate _ _ hs, dictGet_featureSteps_amp, if_pos h]
  · unfold nanmean qmean
    rw [if_neg (by simpa [List.isEmpty_iff] using hne)]
  · unfold nanmean
    rw [if_pos (by simpa [List.isEmpty_iff] using he)]

theorem eda_amp_mean_witness :
    dictGet (_eda_intervalrelated sympNone
        ⟨[("SCR_Amplitude", [CVal.nan, CVal.num 2, CVal.num 4])]⟩ [] 1000).output
      "SCR_Peaks_Amplitude_Mean" = some (RVal.num 3) := by
  have h := eda_amp_mean sympNone ⟨[("SCR_Amplitude", [CVal.nan, CVal.num 2, CVal.num 4])]⟩
    [] 1000 (by decide) (sympNone_avoids _)
  rw [h.1]
  have hfil : nanFilter ((⟨[("SCR_Amplitude", [CVal.nan, CVal.num 2, CVal.num 4])]⟩ : Table).col
      "SCR_Amplitude") = [2, 4] := rfl
  rw [h.2.1 (by rw [hfil]; decide), hfil]
  norm_num

/-- C8: when `SCR_Peaks` is present, `SCR_Peaks_N` is the NaN-tolerant sum of
the channel: the sum of its non-NaN entries, so NaN entries act as zero and
do not propagate (hypothesis: the collaborator does not return a feature of
the same name). -/
theorem eda_peaks_sum (symp : SympFn) (t : Table) (output : Record) (rate : ℚ)
    (h : "SCR_Peaks" ∈ t.colnames)
    (hs : SympAvoids symp "SCR_Peaks_N") :
    dictGet (_eda_intervalrelated symp t output rate).output "SCR_Peaks_N" =
      some (.num (nanFilter (t.col "SCR_Peaks")).sum) ∧
    (∀ pre post : List CVal, nanFilter (pre ++ CVal.nan :: post) = nanFilter (pre ++ post)) := by
  refine ⟨?_, fun pre post => ?_⟩
  · show dictGet (sympStep symp t rate (featureSteps t output)) _ = _
    rw [dictGet_sympStep_avoid symp t rate _ _ hs, dictGet_featureSteps_peaks, if_pos h]
    rfl
  · simp [nanFilter]

theorem eda_peaks_sum_witness :
    dictGet (_eda_intervalrelated sympNone
        ⟨[("SCR_Peaks", [CVal.num 1, CVal.num 0, CVal.num 1, CVal.nan, CVal.num 1])]⟩ [] 1000).output
      "SCR_Peaks_N" = some (RVal.num 3) := by
  have h := eda_peaks_sum sympNone
    ⟨[("SCR_Peaks", [CVal.num 1, CVal.num 0, CVal.num 1, CVal.nan, CVal.num 1])]⟩
    [] 1000 (by decide) (sympNone_avoids _)
  rw [h.1]
  have hfil : nanFilter ((⟨[("SCR_Peaks",
      [CVal.num 1, CVal.num 0, CVal.num 1, CVal.nan, CVal.num 1])]⟩ : Table).col
      "SCR_Peaks") = [1, 0, 1, 1] := rfl
  rw [hfil]
  norm_num

/-- Modelled from the spec: the population standard deviation of a list of
entries, NaN when the list is empty ("the NaN-tolerant standard deviation of
its values (population standard deviation, NaN entries excluded)"). -/
def specPopStd (l : List ℚ) : RVal :=
  if l.isEmpty then .nan
  else .sqrtv ((l.map fun x => (x - l.sum / l.length) ^ 2).sum / l.length)

/-- The real number denoted by a result value, when it denotes one. -/
noncomputable def RVal.interp : RVal → Option ℝ
  | .nan => none
  | .num q => some (q : ℝ)
  | .sqrtv q => some (Real.sqrt (q : ℝ))

/-- Modelled from the spec: the population standard deviation as a real
number, `√((1/n) Σ (xᵢ − μ)²)` with `μ` the arithmetic mean. -/
noncomputable def specPopStdReal (l : List ℚ) : ℝ :=
  Real.sqrt
    ((l.map fun x : ℚ => ((x : ℝ) - (l.map fun y : ℚ => (y : ℝ)).sum / l.length) ^ 2).sum /
      l.length)

theorem qvar_cast (l : List ℚ) :
    ((qvar l : ℚ) : ℝ) =
      (l.map fun x : ℚ => ((x : ℝ) - (l.map fun y : ℚ => (y : ℝ)).sum / l.length) ^ 2).sum /
        l.length := by
  unfold qvar qmean
  rw [Rat.cast_div, Rat.cast_list_sum, List.map_map, Rat.cast_natCast]
  congr 1
  refine congrArg List.sum (List.map_congr_left fun a _ => ?_)
  show ((((a - l.sum / l.length) ^ 2 : ℚ)) : ℝ) = _
  push_cast [Rat.cast_list_sum]
  ring

/-- C9: when `EDA_Tonic` is present, the record's `EDA_Tonic_SD` value is
`np.nanstd` of the channel, which equals the population standard deviation of
its non-NaN entries, both symbolically and as a real number; when `EDA_Tonic`
is absent, the feature is simply omitted (nothing is written under that key)
and the warnings are exactly the two SCR warnings, which do not depend on
`EDA_Tonic` (hypothesis: the collaborator does not return a feature named
`EDA_Tonic_SD`). -/
theorem eda_tonic_sd (symp : SympFn) (t : Table) (output : Record) (rate : ℚ)
    (hs : SympAvoids symp "EDA_Tonic_SD") :
    ("EDA_Tonic" ∈ t.colnames →
      dictGet (_eda_intervalrelated symp t output rate).output "EDA_Tonic_SD" =
        some (nanstd (t.col "EDA_Tonic")) ∧
      nanstd (t.col "EDA_Tonic") = specPopStd (nanFilter (t.col "EDA_Tonic")) ∧
      (nanFilter (t.col "EDA_Tonic") ≠ [] →
        RVal.interp (nanstd (t.col "EDA_Tonic")) =
          some (specPopStdReal (nanFilter (t.col "EDA_Tonic"))))) ∧
    ("EDA_Tonic" ∉ t.colnames →
      dictGet (_eda_intervalrelated symp t output rate).output "EDA_Tonic_SD" =
        dictGet output "EDA_Tonic_SD") ∧
    (_eda_intervalrelated symp t output rate).warnings = scrWarnList t := by
  refine ⟨fun h => ⟨eda_tonic_present_get symp t output rate h hs, rfl, fun hne => ?_⟩,
    fun h => ?_, rfl⟩
  · unfold nanstd
    rw [if_neg (by simpa [List.isEmpty_iff] using hne)]
    simp only [RVal.interp, specPopStdReal, qvar_cast]
  · show dictGet (sympStep symp t rate (featureSteps t output)) _ = _
    rw [dictGet_sympStep_avoid symp t rate _ _ hs, dictGet_featureSteps_tonic_absent t output h]

theorem eda_tonic_sd_witness :
    dictGet (_eda_intervalrelated sympNone
        ⟨[("EDA_Tonic", [CVal.num 1, CVal.nan, CVal.num 5])]⟩ [] 1000).output
      "EDA_Tonic_SD" = some (RVal.sqrtv 4) := by
  have h := (eda_tonic_sd sympNone ⟨[("EDA_Tonic", [CVal.num 1, CVal.nan, CVal.num 5])]⟩
    [] 1000 (sympNone_avoids _)).1 (by decide)
  rw [h.1]
  have hfil : nanFilter ((⟨[("EDA_Tonic", [CVal.num 1, CVal.nan, CVal.num 5])]⟩ : Table).col
      "EDA_Tonic") = [1, 5] := rfl
  have hcol : (⟨[("EDA_Tonic", [CVal.num 1, CVal.nan, CVal.num 5])]⟩ : Table).col "EDA_Tonic"
      = [CVal.num 1, CVal.nan, CVal.num 5] := rfl
  rw [hcol]
  have hfil2 : nanFilter [CVal.num 1, CVal.nan, CVal.num 5] = [1, 5] := rfl
  norm_num [nanstd, hfil2, qvar, qmean]

theorem eda_label_preserved (symp : SympFn) (t : Table) (rate : ℚ) (v : RVal)
    (hs : SympAvoids symp "Label") :
    dictGet (_eda_intervalrelated symp t (dictSet [] "Label" v) rate).output "Label" =
      some v := by
  show dictGet (sympStep symp t rate (featureSteps t (dictSet [] "Label" v))) "Label" = _
  rw [dictGet_sympStep_avoid symp t rate _ _ hs]
  unfold featureSteps
  rw [dictGet_tonicStep_ne t _ _ (by decide), dictGet_ampStep_ne t _ _ (by decide),
    dictGet_peaksStep_ne t _ _ (by decide), dictGet_dictSet_self]

theorem processDict_ok (symp : SympFn) (rate : ℚ) (m : List (String × Table))
    (hlab : ∀ e ∈ m, ∃ v vs, e.2.col? "Label" = some (v :: vs)) :
    ∃ rws, processDict symp rate m = .ok rws := by
  induction m with
  | nil => exact ⟨([], []), rfl⟩
  | cons e m ih =>
    obtain ⟨la, t⟩ := e
    obtain ⟨v, vs, hv⟩ := hlab (la, t) (List.mem_cons_self _ _)
    obtain ⟨⟨rs, ws⟩, hok⟩ := ih fun x hx => hlab x (List.mem_cons_of_mem _ hx)
    have heq : processDict symp rate ((la, t) :: m) =
        .ok ((_eda_intervalrelated symp t (dictSet [] "Label" v.toR) rate).output :: rs,
          (_eda_intervalrelated symp t (dictSet [] "Label" v.toR) rate).warnings ++ ws) := by
      simp only [processDict, hv, List.head?_cons, hok]
    exact ⟨_, heq⟩

theorem processDict_spec (symp : SympFn) (rate : ℚ) (m : List (String × Table))
    (hs : SympAvoids symp "Label")
    (hlab : ∀ e ∈ m, ∃ v vs, e.2.col? "Label" = some (v :: vs)) :
    ∃ rs ws, processDict symp rate m = .ok (rs, ws) ∧
      List.Forall₂ (fun (e : String × Table) rec =>
        dictGet rec "Label" = ((e.2.col? "Label").bind List.head?).map CVal.toR) m rs := by
  induction m with
  | nil => exact ⟨[], [], rfl, List.Forall₂.nil⟩
  | cons e m ih =>
    obtain ⟨la, t⟩ := e
    obtain ⟨v, vs, hv⟩ := hlab (la, t) (List.mem_cons_self _ _)
    obtain ⟨rs, ws, hok, hfa⟩ := ih fun x hx => hlab x (List.mem_cons_of_mem _ hx)
    have heq : processDict symp rate ((la, t) :: m) =
        .ok ((_eda_intervalrelated symp t (dictSet [] "Label" v.toR) rate).output :: rs,
          (_eda_intervalrelated symp t (dictSet [] "Label" v.toR) rate).warnings ++ ws) := by
      simp only [processDict, hv, List.head?_cons, hok]
    refine ⟨_, _, heq, List.Forall₂.cons ?_ hfa⟩
    rw [eda_label_preserved symp t rate (CVal.toR v) hs]
    show _ = ((t.col? "Label").bind List.head?).map CVal.toR
    rw [hv]
    rfl

/-- C4 (amended): for missing feature channels the DataFrame branch raises
nothing: `SCR_Peaks`/`SCR_Amplitude` absence yields a warning and a NaN
record entry while present channels are still aggregated normally, and a
dict input whose every table carries a nonempty `Label` channel also
succeeds; but (see the counterexample) a dict entry without a `Label`
channel raises an unhandled `KeyError` (hypothesis: the collaborator does
not return features named like this component's own keys). -/
theorem eda_missing_channel_graceful (symp : SympFn) (t : Table) (st : Record) (rate : ℚ)
    (hsN : SympAvoids symp "SCR_Peaks_N")
    (hsA : SympAvoids symp "SCR_Peaks_Amplitude_Mean") :
    (∃ rec, eda_intervalrelated symp (.df t) rate st =
        .ok { results := [rec], newState := rec, warnings := scrWarnList t } ∧
      ("SCR_Peaks" ∉ t.colnames →
        Warn.missingSCRPeaks ∈ scrWarnList t ∧ dictGet rec "SCR_Peaks_N" = some .nan) ∧
      ("SCR_Amplitude" ∉ t.colnames →
        Warn.missingSCRAmplitude ∈ scrWarnList t ∧
        dictGet rec "SCR_Peaks_Amplitude_Mean" = some .nan) ∧
      ("SCR_Peaks" ∈ t.colnames →
        dictGet rec "SCR_Peaks_N" = some (nansum (t.col "SCR_Peaks"))) ∧
      ("SCR_Amplitude" ∈ t.colnames →
        dictGet rec "SCR_Peaks_Amplitude_Mean" = some (nanmean (t.col "SCR_Amplitude")))) ∧
    (∀ m : List (String × Table), (∀ e ∈ m, ∃ v vs, e.2.col? "Label" = some (v :: vs)) →
      ∃ out, eda_intervalrelated symp (.dict m) rate st = .ok out) := by
  constructor
  · refine ⟨(_eda_intervalrelated symp t st rate).output, rfl, fun h => ⟨?_, ?_⟩,
      fun h => ⟨?_, ?_⟩, fun h => ?_, fun h => ?_⟩
    · unfold scrWarnList
      rw [if_neg h]
      simp
    · show dictGet (sympStep symp t rate (featureSteps t st)) _ = _
      rw [dictGet_sympStep_avoid symp t rate _ _ hsN, dictGet_featureSteps_peaks, if_neg h]
    · unfold scrWarnList
      rw [if_neg h]
      simp
    · show dictGet (sympStep symp t rate (featureSteps t st)) _ = _
      rw [dictGet_sympStep_avoid symp t rate _ _ hsA, dictGet_featureSteps_amp, if_neg h]
    · show dictGet (sympStep symp t rate (featureSteps t st)) _ = _
      rw [dictGet_sympStep_avoid symp t rate _ _ hsN, dictGet_featureSteps_peaks, if_pos h]
    · show dictGet (sympStep symp t rate (featureSteps t st)) _ = _
      rw [dictGet_sympStep_avoid symp t rate _ _ hsA, dictGet_featureSteps_amp, if_pos h]
  · intro m hlab
    obtain ⟨⟨rs, ws⟩, hok⟩ := processDict_ok symp rate m hlab
    exact ⟨{ results := rs, newState := st, warnings := ws },
      by simp only [eda_intervalrelated, hok]⟩

theorem eda_missing_channel_graceful_witness :
    ∃ rec, eda_intervalrelated sympNone (.df ⟨[]⟩) 1000 [] =
        .ok { results := [rec], newState := rec, warnings := scrWarnList ⟨[]⟩ } ∧
      dictGet rec "SCR_Peaks_N" = some .nan ∧
      dictGet rec "SCR_Peaks_Amplitude_Mean" = some .nan ∧
      Warn.missingSCRPeaks ∈ scrWarnList ⟨[]⟩ ∧
      Warn.missingSCRAmplitude ∈ scrWarnList ⟨[]⟩ := by
  obtain ⟨rec, hok, h1, h2, -, -⟩ := (eda_missing_channel_graceful sympNone ⟨[]⟩ [] 1000
    (sympNone_avoids _) (sympNone_avoids _)).1
  exact ⟨rec, hok, (h1 (by decide)).2, (h2 (by decide)).2, (h1 (by decide)).1,
    (h2 (by decide)).1⟩

/-- C4 (counterexample to the claim as stated): a missing `Label` channel is
a missing-channel case for which the component does raise: a dict input whose
table lacks `Label` hits `data[index]["Label"]` and the call ends in an
unhandled `KeyError`, not in a record of missing-value markers. -/
theorem eda_missing_label_raises :
    eda_intervalrelated sympNone (.dict [("A", ⟨[("SCR_Peaks", [CVal.num 1])]⟩)]) 1000 []
      = .error (.keyError "Label") :=
  rfl

/-- C5: for a collection input whose tables all carry a nonempty `Label`
channel, the result has one row per label, in the mapping's iteration order,
each row's `Label` equal to the first entry of that interval's `Label`
channel; for a single-table input the result has exactly one row (hypothesis:
the collaborator does not return a feature named `Label`). -/
theorem eda_rows (symp : SympFn) (rate : ℚ) (st : Record) (m : List (String × Table))
    (hs : SympAvoids symp "Label")
    (hlab : ∀ e ∈ m, ∃ v vs, e.2.col? "Label" = some (v :: vs)) :
    (∃ out, eda_intervalrelated symp (.dict m) rate st = .ok out ∧
      out.results.length = m.length ∧
      List.Forall₂ (fun (e : String × Table) rec =>
        dictGet rec "Label" = ((e.2.col? "Label").bind List.head?).map CVal.toR)
        m out.results) ∧
    ∀ t : Table, ∃ out, eda_intervalrelated symp (.df t) rate st = .ok out ∧
      out.results.length = 1 := by
  constructor
  · obtain ⟨rs, ws, hok, hfa⟩ := processDict_spec symp rate m hs hlab
    exact ⟨{ results := rs, newState := st, warnings := ws },
      by simp only [eda_intervalrelated, hok], hfa.length_eq.symm, hfa⟩
  · exact fun t => ⟨_, rfl, rfl⟩

theorem eda_rows_witness :
    ∃ out, eda_intervalrelated sympNone
        (.dict [("A", ⟨[("Label", [CVal.num 10])]⟩), ("B", ⟨[("Label", [CVal.num 20])]⟩)])
        1000 [] = .ok out ∧
      out.results.length = 2 ∧
      List.Forall₂ (fun (e : String × Table) rec =>
        dictGet rec "Label" = ((e.2.col? "Label").bind List.head?).map CVal.toR)
        [("A", ⟨[("Label", [CVal.num 10])]⟩), ("B", ⟨[("Label", [CVal.num 20])]⟩)]
        out.results := by
  have h := (eda_rows sympNone 1000 []
    [("A", ⟨[("Label", [CVal.num 10])]⟩), ("B", ⟨[("Label", [CVal.num 20])]⟩)]
    (sympNone_avoids _) ?_).1
  · exact h
  · intro e he
    rcases List.mem_cons.mp he with h1 | h1
    · exact h1 ▸ ⟨CVal.num 10, [], rfl⟩
    · rcases List.mem_cons.mp h1 with h2 | h2
      · exact h2 ▸ ⟨CVal.num 20, [], rfl⟩
      · exact absurd h2 (List.not_mem_nil _)

/-- C10: when `data` is neither a DataFrame nor a dict, neither branch binds
`results`, so `return results` raises an unhandled `NameError` instead of
returning a result table. -/
theorem eda_other_input_nameError (symp : SympFn) (rate : ℚ) (st : Record) :
    eda_intervalrelated symp .other rate st = .error .nameError :=
  rfl
